import Mathlib

/-!
# CareerIntel front-end controller (`static/js/app.js`)

A shallow embedding of the request/render cycle of the `CareerIntel` class and of
the global `onclick` handlers.

Modelling conventions.

* JavaScript strings are Lean `String`s; `toLowerCase` and `trim` act on the
  character list.  `toLowerCase` is modelled on the ASCII letters, which is all
  that matters for the search of the lower-case ASCII word `remote`.
* JavaScript numbers are modelled by exact rationals (`ℚ`) plus the non-finite
  values `NaN` and `±Infinity` (`JsNumber`), so that a division by zero is visible.
* The document is a list of elements keyed by `id`; `getElementById` returns the
  first element carrying the id.  Each element records the properties the script
  reads or writes.
* An exception does not roll back the document: every operation returns the
  world it leaves behind together with either a value or the thrown error.
* `async` methods are split at their first `await`: `…Begin` is the synchronous
  prefix (up to issuing `fetch`), `…Resume` is the continuation that runs once
  the outcome of the request is known.
* The world carries a chronological log of the calls made (`Event`), used to
  state how often and in which order the UI operations are invoked.
* `setTimeout` callbacks (the later removal of a toast) are outside the model.
-/

namespace SmartJob

/-! ## Data model -/

/-- A `File` object delivered by a file input or a drop event. -/
structure File where
  name : String
  type : String
deriving DecidableEq, Repr

/-- JobResult: `{title, company, location, work_mode?, posted_date?, source?,
match_score?, apply_url?}`.  `none` is an absent (or `null`) property; text
fields hold strings and `match_score` holds a (finite) JSON number. -/
structure Job where
  title : Option String := none
  company : Option String := none
  location : Option String := none
  work_mode : Option String := none
  posted_date : Option String := none
  source : Option String := none
  match_score : Option ℚ := none
  apply_url : Option String := none
deriving DecidableEq

/-- The value found under `data.jobs`.  Besides a list of jobs, the shapes a
JSON payload can take there: absent, `null`, a boolean, a number, a string, or
an object (of which only "is its `length` property the number `0`" matters). -/
inductive JobsValue where
  | undefined
  | null
  | array (jobs : List Job)
  | boolean (b : Bool)
  | number (n : ℚ)
  | string (s : String)
  | object (lengthIsZero : Bool)
deriving DecidableEq

/-- An error value thrown by the script or by the platform. -/
inductive JsError where
  | typeError
  | error (message : String)
  | networkError
  | syntaxError
deriving DecidableEq, Repr

/-- A JavaScript number: a finite value, `NaN`, or `±Infinity`. -/
inductive JsNumber where
  | finite (q : ℚ)
  | nan
  | infinity (negative : Bool)
deriving DecidableEq

/-- Platform functions whose output the script does not fix: `Number::toString`
on finite numbers and `JSON.stringify` on a job object.  Of `Number::toString`
it is known that an integer below `10 ^ 21` in absolute value prints as its
decimal digits. -/
structure Platform where
  numberToString : ℚ → String
  jsonStringify : Job → String
  integer_decimal : ∀ n : ℤ, n.natAbs < 10 ^ 21 → numberToString (n : ℚ) = toString n

/-! ## Numbers -/

/-- The addition `sum + job.match_score`; an absent operand (`undefined`) gives `NaN`. -/
def JsNumber.add : JsNumber → Option ℚ → JsNumber
  | .finite a, some b => .finite (a + b)
  | .finite _, none => .nan
  | .nan, _ => .nan
  | .infinity s, some _ => .infinity s
  | .infinity _, none => .nan

/-- The division `x / n` by an array length. -/
def JsNumber.divNat : JsNumber → Nat → JsNumber
  | .finite a, n =>
    if n = 0 then
      (if a = 0 then .nan else .infinity (decide (a < 0)))
    else .finite (a / (n : ℚ))
  | .nan, _ => .nan
  | .infinity s, _ => .infinity s

/-- The function `Math.round`: nearest integer, ties towards `+∞`. -/
def JsNumber.round : JsNumber → JsNumber
  | .finite a => .finite (⌊a + 1 / 2⌋ : ℤ)
  | .nan => .nan
  | .infinity s => .infinity s

/-- String conversion of a number inside a template literal. -/
def JsNumber.toJsString (P : Platform) : JsNumber → String
  | .finite a => P.numberToString a
  | .nan => "NaN"
  | .infinity false => "Infinity"
  | .infinity true => "-Infinity"

/-! ## Strings -/

/-- The method `String.prototype.toLowerCase`. -/
def toLowerCase (s : String) : String := ⟨s.data.map Char.toLower⟩

/-- Does `needle` occur as a contiguous block of `hay`? -/
def includesChars (needle : List Char) : List Char → Bool
  | [] => needle.isPrefixOf []
  | c :: cs => needle.isPrefixOf (c :: cs) || includesChars needle cs

/-- The method `String.prototype.includes`. -/
def includes (s searchString : String) : Bool := includesChars searchString.data s.data

/-- Truthiness of a number-valued property that may be absent. -/
def truthyNumber : Option ℚ → Bool
  | some q => decide (q ≠ 0)
  | none => false

/-- The expression `value || fallback` on a string-valued property. -/
def orElse (value : Option String) (fallback : String) : String :=
  match value with
  | some s => if s ≠ "" then s else fallback
  | none => fallback

/-! ## Document -/

/-- The properties of an element that the script reads or writes. -/
structure Elem where
  className : String := ""
  textContent : String := ""
  innerHTML : String := ""
  cssText : String := ""
  display : String := ""
  width : String := ""
  strokeDashoffset : String := ""
  href : String := ""
  value : String := ""
  checked : Bool := false
  files : List File := []
deriving DecidableEq, Repr

/-- A part of a multipart form body. -/
inductive FormValue where
  | file (f : File)
  | text (s : String)
deriving DecidableEq, Repr

/-- The body of a request. -/
inductive RequestBody where
  | json (query location : String) (remote : Bool) (sources : List String)
  | form (parts : List (String × FormValue))
deriving DecidableEq, Repr

/-- The calls recorded in the log, in the order in which they start. -/
inductive Event where
  | showLoading (message : String)
  | fetch (url : String) (body : RequestBody)
  | displayJobs
  | updateStats
  | displayCVAnalysis
  | consoleError (label : String)
  | showError (message : String)
  | showNotification (message type : String)
  | hideLoading
deriving DecidableEq, Repr

/-- A toast element appended to `document.body` by `showNotification`. -/
structure Notification where
  className : String
  cssText : String
  background : String
  textContent : String
deriving DecidableEq, Repr

/-- The state the script acts on. -/
structure World where
  /-- Elements that carry an id, in document order. -/
  elems : List (String × Elem) := []
  /-- Toasts appended to the body. -/
  notifications : List Notification := []
  /-- Text of the style elements appended to the head. -/
  headStyles : List String := []
  /-- The attribute `data-theme` of the root element. -/
  dataTheme : Option String := none
  /-- The field `CareerIntel.config.currentTheme`. -/
  currentTheme : String := "corporate-light"
  /-- The field `CareerIntel.config.apiBaseUrl`. -/
  apiBaseUrl : String := "/api/v1"
  /-- Browser local storage. -/
  localStorage : List (String × String) := []
  /-- Calls made so far. -/
  log : List Event := []
deriving DecidableEq, Repr

/-- The lookup `document.getElementById(id)`. -/
def getElementById (w : World) (id : String) : Option Elem := w.elems.lookup id

/-- Apply `f` to the first element carrying `id`. -/
def updateElem (id : String) (f : Elem → Elem) : List (String × Elem) → List (String × Elem)
  | [] => []
  | (k, e) :: rest => if k = id then (k, f e) :: rest else (k, e) :: updateElem id f rest

/-- Write to a property of the element returned by `getElementById`. -/
def World.modify (w : World) (id : String) (f : Elem → Elem) : World :=
  { w with elems := updateElem id f w.elems }

/-- The guarded write `const el = document.getElementById(id); if (el) { el.… = … }`. -/
def World.whenPresent (w : World) (id : String) (f : Elem → Elem) : World :=
  match getElementById w id with
  | some _ => w.modify id f
  | none => w

/-- Append a call to the log. -/
def World.record (w : World) (e : Event) : World := { w with log := w.log ++ [e] }

/-! ## `CareerIntel.updateStats` -/

/-- The filter predicate
`job.work_mode && job.work_mode.toLowerCase().includes('remote')`. -/
def isRemote (job : Job) : Bool :=
  match job.work_mode with
  | some s => decide (s ≠ "") && includes (toLowerCase s) "remote"
  | none => false

/-- The value `jobs.filter(job => job.match_score)`. -/
def jobsWithScores (jobs : List Job) : List Job :=
  jobs.filter (fun job => truthyNumber job.match_score)

/-- The value `jobsWithScores.reduce((sum, job) => sum + job.match_score, 0)`. -/
def scoreSum (scored : List Job) : JsNumber :=
  scored.foldl (fun sum job => sum.add job.match_score) (.finite 0)

/-- The value `avgScore` of `updateStats`, computed when `jobsWithScores` is non-empty. -/
def avgScore (jobs : List Job) : JsNumber :=
  (scoreSum (jobsWithScores jobs)).divNat (jobsWithScores jobs).length

/-- The method `CareerIntel.updateStats(jobs)`. -/
def CareerIntel.updateStats (P : Platform) (w0 : World) (jobs : JobsValue) :
    World × Except JsError Unit :=
  let w := w0.record Event.updateStats
  match jobs with
  | .undefined => (w, .error .typeError)
  | .null => (w, .error .typeError)
  | .array js =>
    let totalJobs := js.length
    let remoteJobs := (js.filter isRemote).length
    let w := w.whenPresent "jobs-count" (fun e => { e with textContent := toString totalJobs })
    let w := w.whenPresent "remote-jobs" (fun e => { e with textContent := toString remoteJobs })
    if (jobsWithScores js).length > 0 then
      let avg := avgScore js
      let w := w.whenPresent "match-score"
        (fun e => { e with textContent := avg.round.toJsString P ++ "%" })
      let w := w.whenPresent "match-progress"
        (fun e => { e with width := avg.toJsString P ++ "%" })
      (w, .ok ())
    else (w, .ok ())
  | _ => (w, .error .typeError)

/-! ## Escaping and templates -/

/-- Serialisation of one character of a text node (`div.innerHTML` after
`div.textContent = text`). -/
def escapeChar (c : Char) : List Char :=
  if c = '&' then "&amp;".data
  else if c = '<' then "&lt;".data
  else if c = '>' then "&gt;".data
  else if c = Char.ofNat 160 then "&nbsp;".data
  else [c]

/-- Serialisation of the characters of a text node. -/
def escapeChars : List Char → List Char
  | [] => []
  | c :: cs => escapeChar c ++ escapeChars cs

/-- The method `CareerIntel.escapeHtml(text)`; an absent `text` sets an empty
text content. -/
def CareerIntel.escapeHtml (text : Option String) : String :=
  match text with
  | some s => ⟨escapeChars s.data⟩
  | none => ""

/-- The replacement `.replace(/'/g, "\\'")`: a backslash before every apostrophe. -/
def escapeApostrophes : List Char → List Char
  | [] => []
  | c :: cs =>
    if c = Char.ofNat 39 then Char.ofNat 92 :: Char.ofNat 39 :: escapeApostrophes cs
    else c :: escapeApostrophes cs

/-- The placeholder written by `displayJobs` for an empty result. -/
def emptyStateHtml : String :=
  "\n                <div class=\"empty-state\">\n                    <i class=\"fas fa-search fa-3x\"></i>\n                    <h3>No jobs found</h3>\n                    <p>Try adjusting your search criteria</p>\n                </div>\n            "

/-- The template literal of one job card, as a function of the values
interpolated into its eight slots. -/
def jobCardTemplate (badge title company location workMode postedDate applyUrl json : String) :
    String :=
  "\n                <div class=\"job-card\">\n                    <div class=\"job-header\">\n                        <div class=\"company-logo\">\n                            <i class=\"fas fa-building\"></i>\n                        </div>\n                        <div class=\"job-meta\">\n                            "
  ++ badge ++
  "\n                            <button class=\"bookmark-btn\" onclick=\"CareerIntel.toggleBookmark(this)\">\n                                <i class=\"far fa-bookmark\"></i>\n                            </button>\n                        </div>\n                    </div>\n                    <h3 class=\"job-title\">"
  ++ title ++
  "</h3>\n                    <p class=\"company-name\">"
  ++ company ++
  "</p>\n                    <div class=\"job-details\">\n                        <span><i class=\"fas fa-map-marker-alt\"></i> "
  ++ location ++
  "</span>\n                        <span><i class=\"fas fa-home\"></i> "
  ++ workMode ++
  "</span>\n                        <span><i class=\"fas fa-clock\"></i> "
  ++ postedDate ++
  "</span>\n                    </div>\n                    <div class=\"job-actions\">\n                        <button class=\"btn-primary\" onclick=\"CareerIntel.applyJob('"
  ++ applyUrl ++
  "')\">\n                            Apply Now\n                        </button>\n                        <button class=\"btn-secondary\" onclick=\"CareerIntel.viewJobDetails("
  ++ json ++
  ")\">\n                            View Details\n                        </button>\n                    </div>\n                </div>\n            "

/-- The badge of a card:
`job.match_score ? ‹span class="match-badge"›${job.match_score}% Match‹/span› : ''`. -/
def matchBadge (P : Platform) (job : Job) : String :=
  match job.match_score with
  | some q =>
    if q ≠ 0 then "<span class=\"match-badge\">" ++ P.numberToString q ++ "% Match</span>"
    else ""
  | none => ""

/-- The HTML appended to `html` for one job by the `forEach` of `displayJobs`. -/
def jobCard (P : Platform) (job : Job) : String :=
  jobCardTemplate
    (matchBadge P job)
    (CareerIntel.escapeHtml job.title)
    (CareerIntel.escapeHtml job.company)
    (CareerIntel.escapeHtml job.location)
    (orElse job.work_mode "Not specified")
    (orElse job.posted_date "Recently")
    (CareerIntel.escapeHtml (some (orElse job.apply_url "")))
    ⟨escapeApostrophes (P.jsonStringify job).data⟩

/-- The value of `html` after the `forEach` of `displayJobs`. -/
def jobCardsHtml (P : Platform) (jobs : List Job) : String :=
  jobs.foldl (fun html job => html ++ jobCard P job) ""

/-- Truthiness of the `jobs` argument. -/
def JobsValue.truthy : JobsValue → Bool
  | .undefined => false
  | .null => false
  | .array _ => true
  | .boolean b => b
  | .number n => decide (n ≠ 0)
  | .string s => decide (s ≠ "")
  | .object _ => true

/-- The test `jobs.length === 0` (evaluated on truthy values only). -/
def JobsValue.lengthIsZero : JobsValue → Bool
  | .array js => decide (js.length = 0)
  | .string s => decide (s.length = 0)
  | .object z => z
  | _ => false

/-- The method `CareerIntel.displayJobs(jobs)`. -/
def CareerIntel.displayJobs (P : Platform) (w0 : World) (jobs : JobsValue) :
    World × Except JsError Unit :=
  let w := w0.record Event.displayJobs
  match getElementById w "jobs-container" with
  | none => (w, .ok ())
  | some _ =>
    if !jobs.truthy || jobs.lengthIsZero then
      (w.modify "jobs-container" (fun e => { e with innerHTML := emptyStateHtml }), .ok ())
    else
      match jobs with
      | .array js =>
        (w.modify "jobs-container" (fun e => { e with innerHTML := jobCardsHtml P js }), .ok ())
      | _ => (w, .error .typeError)

/-- The template literal of the details modal, as a function of the values
interpolated into its eight slots. -/
def modalTemplate (title company location workMode postedDate source score applyUrl : String) :
    String :=
  "\n            <div class=\"modal-content\">\n                <div class=\"modal-header\">\n                    <h3>"
  ++ title ++
  "</h3>\n                    <button class=\"modal-close\" onclick=\"this.closest('.modal').style.display='none'\">&times;</button>\n                </div>\n                <div class=\"modal-body\">\n                    <div class=\"job-details-full\">\n                        <div class=\"detail-row\">\n                            <strong>Company:</strong> "
  ++ company ++
  "\n                        </div>\n                        <div class=\"detail-row\">\n                            <strong>Location:</strong> "
  ++ location ++
  "\n                        </div>\n                        <div class=\"detail-row\">\n                            <strong>Work Mode:</strong> "
  ++ workMode ++
  "\n                        </div>\n                        <div class=\"detail-row\">\n                            <strong>Posted:</strong> "
  ++ postedDate ++
  "\n                        </div>\n                        <div class=\"detail-row\">\n                            <strong>Source:</strong> "
  ++ source ++
  "\n                        </div>\n                        "
  ++ score ++
  "\n                    </div>\n                </div>\n                <div class=\"modal-footer\">\n                    <button class=\"btn-secondary\" onclick=\"this.closest('.modal').style.display='none'\">Close</button>\n                    <button class=\"btn-primary\" onclick=\"CareerIntel.applyJob('"
  ++ applyUrl ++
  "')\">\n                        Apply Now\n                    </button>\n                </div>\n            </div>\n        "

/-- The optional score row of the modal. -/
def modalScoreRow (P : Platform) (job : Job) : String :=
  match job.match_score with
  | some q =>
    if q ≠ 0 then
      "\n                        <div class=\"detail-row\">\n                            <strong>Match Score:</strong> "
      ++ P.numberToString q ++
      "%\n                        </div>\n                        "
    else ""
  | none => ""

/-- The `innerHTML` given to the modal by `createJobDetailsModal`. -/
def modalHtml (P : Platform) (job : Job) : String :=
  modalTemplate
    (CareerIntel.escapeHtml job.title)
    (CareerIntel.escapeHtml job.company)
    (CareerIntel.escapeHtml job.location)
    (orElse job.work_mode "Not specified")
    (orElse job.posted_date "Recently")
    (orElse job.source "Unknown")
    (modalScoreRow P job)
    (CareerIntel.escapeHtml (some (orElse job.apply_url "")))

/-- The method `CareerIntel.createJobDetailsModal(job)`: the id and the element created. -/
def CareerIntel.createJobDetailsModal (P : Platform) (job : Job) : String × Elem :=
  ("job-details-modal", { className := "modal", innerHTML := modalHtml P job })

/-- The method `CareerIntel.viewJobDetails(job)`. -/
def CareerIntel.viewJobDetails (P : Platform) (w : World) (job : Job) : World :=
  let modal := CareerIntel.createJobDetailsModal P job
  { w with elems := w.elems ++ [(modal.1, { modal.2 with display := "flex" })] }

/-! ## Loading overlay and notifications -/

/-- The `cssText` given to a freshly created loading overlay. -/
def loadingCssText : String :=
  "\n                position: fixed;\n                top: 0;\n                left: 0;\n                width: 100%;\n                height: 100%;\n                background: rgba(0, 0, 0, 0.5);\n                display: flex;\n                align-items: center;\n                justify-content: center;\n                z-index: 9999;\n            "

/-- The `innerHTML` given to a freshly created loading overlay. -/
def loadingHtml (message : String) : String :=
  "\n                <div style=\"background: white; padding: 2rem; border-radius: 8px; text-align: center;\">\n                    <div class=\"loading-spinner\" style=\"border: 3px solid #f3f3f3; border-top: 3px solid #3498db; border-radius: 50%; width: 40px; height: 40px; animation: spin 1s linear infinite; margin: 0 auto 1rem;\"></div>\n                    <p>"
  ++ message ++
  "</p>\n                </div>\n            "

/-- The style sheet appended to the head together with a new loading overlay. -/
def spinStyle : String :=
  "\n                @keyframes spin \x7b\n                    0% \x7b transform: rotate(0deg); \x7d\n                    100% \x7b transform: rotate(360deg); \x7d\n                \x7d\n            "

/-- The method `CareerIntel.showLoading(message = 'Loading...')`. -/
def CareerIntel.showLoading (w0 : World) (message : String := "Loading...") : World :=
  let w := w0.record (Event.showLoading message)
  match getElementById w "loading-overlay" with
  | none =>
    { w with
      elems := w.elems ++ [("loading-overlay",
        { cssText := loadingCssText, display := "flex", width := "100%",
          innerHTML := loadingHtml message })]
      headStyles := w.headStyles ++ [spinStyle] }
  | some _ => w.modify "loading-overlay" (fun e => { e with display := "flex" })

/-- The method `CareerIntel.hideLoading()`. -/
def CareerIntel.hideLoading (w0 : World) : World :=
  let w := w0.record Event.hideLoading
  w.whenPresent "loading-overlay" (fun e => { e with display := "none" })

/-- The `cssText` given to a toast. -/
def notificationCssText : String :=
  "\n            position: fixed;\n            top: 20px;\n            right: 20px;\n            padding: 1rem 1.5rem;\n            border-radius: 8px;\n            color: white;\n            font-weight: 600;\n            z-index: 10000;\n            animation: slideIn 0.3s ease;\n        "

/-- The style sheet appended to the head together with a toast. -/
def slideStyle : String :=
  "\n            @keyframes slideIn \x7b\n                from \x7b transform: translateX(100%); opacity: 0; \x7d\n                to \x7b transform: translateX(0); opacity: 1; \x7d\n            \x7d\n            @keyframes slideOut \x7b\n                from \x7b transform: translateX(0); opacity: 1; \x7d\n                to \x7b transform: translateX(100%); opacity: 0; \x7d\n            \x7d\n        "

/-- The lookup `colors[type] || colors.info`. -/
def notificationColor (type : String) : String :=
  if type = "error" then "#ef4444"
  else if type = "success" then "#10b981"
  else if type = "info" then "#3b82f6"
  else if type = "warning" then "#f59e0b"
  else "#3b82f6"

/-- The method `CareerIntel.showNotification(message, type, duration)`; the timer
that later removes the toast is not modelled. -/
def CareerIntel.showNotification (w0 : World) (message : String) (type : String := "info")
    (_duration : Nat := 5000) : World :=
  let w := w0.record (Event.showNotification message type)
  { w with
    notifications := w.notifications ++
      [{ className := "notification notification-" ++ type, cssText := notificationCssText,
         background := notificationColor type, textContent := message }]
    headStyles := w.headStyles ++ [slideStyle] }

/-- The method `CareerIntel.showError(message, duration = 5000)`. -/
def CareerIntel.showError (w : World) (message : String) (duration : Nat := 5000) : World :=
  CareerIntel.showNotification (w.record (Event.showError message)) message "error" duration

/-- The call `console.error(label, error)`. -/
def consoleError (w : World) (label : String) : World := w.record (Event.consoleError label)

/-! ## Requests -/

/-- What happens to a request: `fetch` rejects, `response.json()` rejects, or a
body is parsed. -/
inductive FetchOutcome (α : Type) where
  | rejects
  | invalidJson
  | parsed (data : α)
deriving DecidableEq

/-- A parsed body of the search endpoint: `null`, a JSON value without own
properties `success`, `jobs`, `error` (a number, string, boolean or array), or an
object, of which the truthiness of `success`, the value of `jobs` and the text
of `error` are kept. -/
inductive SearchData where
  | null
  | plain
  | object (success : Bool) (jobs : JobsValue) (error : Option String)
deriving DecidableEq

/-- The synchronous prefix of `CareerIntel.searchJobs(query, location = '', remote = false)`:
`showLoading()` and the call of `fetch`. -/
def CareerIntel.searchJobsBegin (w : World) (query : String) (location : String := "")
    (remote : Bool := false) : World :=
  let w := CareerIntel.showLoading w
  w.record (Event.fetch (w.apiBaseUrl ++ "/jobs/search")
    (RequestBody.json query location remote ["linkedin", "indeed"]))

/-- The rest of the `try` block of `searchJobs`, once the outcome of the request is known. -/
def CareerIntel.searchJobsTry (P : Platform) (w : World) (outcome : FetchOutcome SearchData) :
    World × Except JsError SearchData :=
  match outcome with
  | .rejects => (w, .error .networkError)
  | .invalidJson => (w, .error .syntaxError)
  | .parsed .null => (w, .error .typeError)
  | .parsed .plain => (w, .error (.error "Search failed"))
  | .parsed (.object success jobs error) =>
    if success then
      match CareerIntel.displayJobs P w jobs with
      | (w, .error e) => (w, .error e)
      | (w, .ok ()) =>
        match CareerIntel.updateStats P w jobs with
        | (w, .error e) => (w, .error e)
        | (w, .ok ()) => (w, .ok (.object success jobs error))
    else (w, .error (.error (orElse error "Search failed")))

/-- The continuation of `searchJobs` after the request: rest of `try`, then
`catch` and `finally`.  The value is what the returned promise resolves to
(`none` for `null`). -/
def CareerIntel.searchJobsResume (P : Platform) (w : World) (outcome : FetchOutcome SearchData) :
    World × Option SearchData :=
  match CareerIntel.searchJobsTry P w outcome with
  | (w, .ok data) => (CareerIntel.hideLoading w, some data)
  | (w, .error _) =>
    let w := consoleError w "Search error:"
    let w := CareerIntel.showError w "Failed to search jobs. Please try again."
    (CareerIntel.hideLoading w, none)

/-- One whole invocation of `CareerIntel.searchJobs`. -/
def CareerIntel.searchJobs (P : Platform) (w : World) (outcome : FetchOutcome SearchData)
    (query : String) (location : String := "") (remote : Bool := false) :
    World × Option SearchData :=
  CareerIntel.searchJobsResume P (CareerIntel.searchJobsBegin w query location remote) outcome

/-! ## CV analysis -/

/-- The argument of `CareerIntel.analyzeCV`: `{file?, text?}`. -/
structure CVData where
  file : Option File := none
  text : Option String := none
deriving DecidableEq, Repr

/-- The object under `data.analysis`: `{overall_score, recommendations}`. -/
structure Analysis where
  overall_score : Option ℚ := none
  recommendations : Option (List String) := none
deriving DecidableEq

/-- A parsed body of the analysis endpoint (see `SearchData`); an absent or
`null` `analysis` is `none`. -/
inductive AnalysisData where
  | null
  | plain
  | object (success : Bool) (analysis : Option Analysis) (error : Option String)
deriving DecidableEq

/-- The form built by `analyzeCV`:
`if (cvData.file) append('cv_file', …) else if (cvData.text) append('cv_text', …)`. -/
def buildFormData (cvData : CVData) : List (String × FormValue) :=
  match cvData.file with
  | some f => [("cv_file", FormValue.file f)]
  | none =>
    match cvData.text with
    | some t => if t ≠ "" then [("cv_text", FormValue.text t)] else []
    | none => []

/-- Run `k` on the world left by a step that did not throw. -/
def andThen (r : World × Except JsError Unit) (k : World → World × Except JsError Unit) :
    World × Except JsError Unit :=
  match r with
  | (w, .ok ()) => k w
  | (w, .error e) => (w, .error e)

/-- The expression `analysis.overall_score || 0`. -/
def scoreOrZero (a : Analysis) : ℚ :=
  match a.overall_score with
  | some q => q
  | none => 0

/-- The value of `html` after the `forEach` over `analysis.recommendations`. -/
def recommendationsHtml (recs : List String) : String :=
  recs.foldl (fun html rec =>
    html ++ ("<li><i class=\"fas fa-exclamation-circle\"></i> "
      ++ CareerIntel.escapeHtml (some rec) ++ "</li>")) ""

/-- The method `CareerIntel.displayCVAnalysis(analysis)`.  Reading a property of
an absent `analysis` throws. -/
def CareerIntel.displayCVAnalysis (P : Platform) (w0 : World) (analysis : Option Analysis) :
    World × Except JsError Unit :=
  let w := w0.record Event.displayCVAnalysis
  andThen
    (match getElementById w "cv-score-display" with
     | some _ =>
       match analysis with
       | some a => (w.modify "cv-score-display"
           (fun e => { e with textContent := P.numberToString (scoreOrZero a) }), .ok ())
       | none => (w, .error .typeError)
     | none => (w, .ok ())) fun w =>
  andThen
    (match getElementById w "score-arc" with
     | some _ =>
       match analysis with
       | some a =>
         if truthyNumber a.overall_score then
           let percentage := scoreOrZero a
           let offset := 314 - (percentage * 314) / 100
           (w.modify "score-arc"
             (fun e => { e with strokeDashoffset := P.numberToString offset }), .ok ())
         else (w, .ok ())
       | none => (w, .error .typeError)
     | none => (w, .ok ())) fun w =>
  andThen
    (match getElementById w "cv-recommendations" with
     | some _ =>
       match analysis with
       | some a =>
         match a.recommendations with
         | some recs => (w.modify "cv-recommendations"
             (fun e => { e with innerHTML := recommendationsHtml recs }), .ok ())
         | none => (w, .ok ())
       | none => (w, .error .typeError)
     | none => (w, .ok ())) fun w =>
  match getElementById w "cv-score" with
  | some _ =>
    match analysis with
    | some a => (w.modify "cv-score"
        (fun e => { e with textContent := P.numberToString (scoreOrZero a) ++ "/100" }), .ok ())
    | none => (w, .error .typeError)
  | none => (w, .ok ())

/-- The synchronous prefix of `CareerIntel.analyzeCV(cvData)`: `showLoading`,
the form, and the call of `fetch`. -/
def CareerIntel.analyzeCVBegin (w : World) (cvData : CVData) : World :=
  let w := CareerIntel.showLoading w "Analyzing CV..."
  let formData := buildFormData cvData
  w.record (Event.fetch (w.apiBaseUrl ++ "/cv/analyze") (RequestBody.form formData))

/-- The rest of the `try` block of `analyzeCV`, once the outcome of the request is known. -/
def CareerIntel.analyzeCVTry (P : Platform) (w : World) (outcome : FetchOutcome AnalysisData) :
    World × Except JsError AnalysisData :=
  match outcome with
  | .rejects => (w, .error .networkError)
  | .invalidJson => (w, .error .syntaxError)
  | .parsed .null => (w, .error .typeError)
  | .parsed .plain => (w, .error (.error "Analysis failed"))
  | .parsed (.object success analysis error) =>
    if success then
      match CareerIntel.displayCVAnalysis P w analysis with
      | (w, .error e) => (w, .error e)
      | (w, .ok ()) => (w, .ok (.object success analysis error))
    else (w, .error (.error (orElse error "Analysis failed")))

/-- The continuation of `analyzeCV` after the request: rest of `try`, then
`catch` and `finally`. -/
def CareerIntel.analyzeCVResume (P : Platform) (w : World)
    (outcome : FetchOutcome AnalysisData) : World × Option AnalysisData :=
  match CareerIntel.analyzeCVTry P w outcome with
  | (w, .ok data) => (CareerIntel.hideLoading w, some data)
  | (w, .error _) =>
    let w := consoleError w "CV analysis error:"
    let w := CareerIntel.showError w "Failed to analyze CV. Please try again."
    (CareerIntel.hideLoading w, none)

/-- One whole invocation of `CareerIntel.analyzeCV`. -/
def CareerIntel.analyzeCV (P : Platform) (w : World) (outcome : FetchOutcome AnalysisData)
    (cvData : CVData) : World × Option AnalysisData :=
  CareerIntel.analyzeCVResume P (CareerIntel.analyzeCVBegin w cvData) outcome

/-! ## Theme -/

/-- The call `localStorage.setItem(key, value)`. -/
def setItem (key value : String) : List (String × String) → List (String × String)
  | [] => [(key, value)]
  | (k, v) :: rest => if k = key then (k, value) :: rest else (k, v) :: setItem key value rest

/-- The method `CareerIntel.setTheme(themeName)`. -/
def CareerIntel.setTheme (w : World) (themeName : String) : World :=
  match getElementById w "theme-css" with
  | some _ =>
    let w := w.modify "theme-css"
      (fun e => { e with href := "/static/css/themes/" ++ themeName ++ ".css" })
    let w := { w with
      dataTheme := some themeName
      currentTheme := themeName
      localStorage := setItem "careerintel_theme" themeName w.localStorage }
    w.whenPresent "theme-selector" (fun e => { e with value := themeName })
  | none => w

/-! ## Global `onclick` handlers -/

/-- The white space and line terminator characters removed by `trim`. -/
def isJsWhitespace (c : Char) : Bool :=
  let n := c.toNat
  n = 9 || n = 10 || n = 11 || n = 12 || n = 13 || n = 32 || n = 160 || n = 5760
    || (8192 ≤ n && n ≤ 8202) || n = 8232 || n = 8233 || n = 8239 || n = 8287
    || n = 12288 || n = 65279

/-- The method `String.prototype.trim`. -/
def jsTrim (s : String) : String :=
  ⟨((s.data.dropWhile isJsWhitespace).reverse.dropWhile isJsWhitespace).reverse⟩

/-- The assignment `document.getElementById(id).style.display = value`, which
throws when the element is absent. -/
def setDisplay (w : World) (id value : String) : World × Except JsError Unit :=
  match getElementById w id with
  | some _ => (w.modify id (fun e => { e with display := value }), .ok ())
  | none => (w, .error .typeError)

/-- The global `performSearch()`; the search it starts runs up to its `fetch`. -/
def performSearch (w : World) : World × Except JsError Unit :=
  match getElementById w "global-search" with
  | some searchInput =>
    if jsTrim searchInput.value ≠ "" then
      (CareerIntel.searchJobsBegin w (jsTrim searchInput.value), .ok ())
    else (w, .ok ())
  | none => (w, .ok ())

/-- The global `analyzeCV()`. -/
def analyzeCV (w : World) : World × Except JsError Unit :=
  setDisplay w "cv-modal" "block"

/-- The global `analyzeUploadedCV()`; the analysis it starts runs up to its `fetch`. -/
def analyzeUploadedCV (w : World) : World × Except JsError Unit :=
  let cvText := getElementById w "cv-text"
  let cvFile := getElementById w "cv-file"
  match cvFile with
  | none => (w, .error .typeError)
  | some fileInput =>
    match fileInput.files with
    | f :: _ =>
      let w := CareerIntel.analyzeCVBegin w { file := some f }
      setDisplay w "cv-modal" "none"
    | [] =>
      match cvText with
      | some textArea =>
        if jsTrim textArea.value ≠ "" then
          let w := CareerIntel.analyzeCVBegin w { text := some (jsTrim textArea.value) }
          setDisplay w "cv-modal" "none"
        else (CareerIntel.showError w "Please upload a file or paste your CV text", .ok ())
      | none => (CareerIntel.showError w "Please upload a file or paste your CV text", .ok ())

/-- The global `changeTheme(themeName)`. -/
def changeTheme (w : World) (themeName : String) : World × Except JsError Unit :=
  (CareerIntel.setTheme w themeName, .ok ())

/-- The global `closeModal(modalId)`. -/
def closeModal (w : World) (modalId : String) : World × Except JsError Unit :=
  setDisplay w modalId "none"

/-- The global `showSearchModal()`. -/
def showSearchModal (w : World) : World × Except JsError Unit :=
  setDisplay w "search-modal" "block"

/-- The global `performAdvancedSearch()`; the search it starts runs up to its `fetch`. -/
def performAdvancedSearch (w : World) : World × Except JsError Unit :=
  match getElementById w "search-query" with
  | none => (w, .error .typeError)
  | some queryInput =>
    match getElementById w "search-location" with
    | none => (w, .error .typeError)
    | some locationInput =>
      match getElementById w "search-remote" with
      | none => (w, .error .typeError)
      | some remoteInput =>
        if jsTrim queryInput.value ≠ "" then
          let w := CareerIntel.searchJobsBegin w (jsTrim queryInput.value)
            (jsTrim locationInput.value) remoteInput.checked
          setDisplay w "search-modal" "none"
        else (CareerIntel.showError w "Please enter a job title or keywords", .ok ())

/-! ## Specification-side notions -/

/-- Case-insensitive containment of the word `remote`: some contiguous block of
the work-mode text reads `remote` once lower-cased. -/
def MentionsRemote (job : Job) : Prop :=
  ∃ s, job.work_mode = some s ∧
    ∃ pre mid post : List Char, s.data = pre ++ mid ++ post ∧
      mid.map Char.toLower = "remote".data

/-- The scores of the entries that carry a numeric `match_score`. -/
def numericScores (jobs : List Job) : List ℚ := jobs.filterMap (fun job => job.match_score)

/-- The mean of the scores of the entries that carry a numeric `match_score`. -/
def meanOfNumericScores (jobs : List Job) : ℚ :=
  (numericScores jobs).sum / ((numericScores jobs).length : ℚ)

/-- The scores of the entries whose `match_score` is a number other than zero. -/
def nonzeroScores (jobs : List Job) : List ℚ := (numericScores jobs).filter (fun q => q ≠ 0)

/-- The mean of the scores of the entries whose `match_score` is a number other than zero. -/
def meanOfNonzeroScores (jobs : List Job) : ℚ :=
  (nonzeroScores jobs).sum / ((nonzeroScores jobs).length : ℚ)

/-- A search counts as failed when `fetch` rejects, the body does not parse, or
the parsed body carries no truthy `success`. -/
def failedSearch : FetchOutcome SearchData → Bool
  | .parsed (.object true _ _) => false
  | _ => true

/-- Is the value under `data.jobs` a list? -/
def JobsValue.isList : JobsValue → Bool
  | .array _ => true
  | _ => false

/-- The rule for an optional text field: the fallback is shown when the field is
missing or empty, the field's own value otherwise. -/
def FallbackRule (field : Option String) (fallback shown : String) : Prop :=
  (field = none → shown = fallback) ∧ (field = some "" → shown = fallback) ∧
    ∀ v, field = some v → v ≠ "" → shown = v

/-- Is this the record of a `showError` call? -/
def Event.isShowError : Event → Bool
  | .showError _ => true
  | _ => false

/-! ## Data for the worked examples -/

/-- A platform for the worked examples: integers print in decimal, as
`Number::toString` prints them; a non-integer prints as a fraction, standing in
for its decimal expansion; every job serialises to an empty object. -/
def examplePlatform : Platform where
  numberToString q := if q.den = 1 then toString q.num else toString q.num ++ "/" ++ toString q.den
  jsonStringify _ := "\x7b\x7d"
  integer_decimal n _ := by simp

/-- A document with a results container and the four stat displays, showing
the outcome of an earlier search. -/
def exampleWorld : World :=
  { elems := [("jobs-container", { innerHTML := "<div class=\"job-card\">earlier</div>" }),
              ("jobs-count", { textContent := "1" }),
              ("remote-jobs", { textContent := "0" }),
              ("match-score", { textContent := "80%" }),
              ("match-progress", { width := "80%" })] }

/-- Three jobs: one remote, one on site, one without work mode. -/
def exampleJobs : List Job :=
  [{ title := some "Engineer", work_mode := some "Fully REMOTE" },
   { title := some "Designer", work_mode := some "On-site" },
   { title := some "Analyst" }]

/-- Two scored jobs, one of them with the score `0`. -/
def zeroAndHundred : List Job :=
  [{ title := some "A", match_score := some 0 }, { title := some "B", match_score := some 100 }]

/-- Three jobs, two of them scored (`70` and `85`). -/
def scoredJobs : List Job :=
  [{ title := some "A", match_score := some 70 }, { title := some "B" },
   { title := some "C", match_score := some 85 }]

/-- A job whose text fields carry markup. -/
def scriptJob : Job :=
  { title := some "<script>alert(1)</script>",
    work_mode := some "<script>alert(1)</script>",
    posted_date := some "<img src=x onerror=alert(2)>",
    source := some "<b>feed</b>" }

/-- A job whose `work_mode` is present and empty. -/
def emptyWorkModeJob : Job := { title := some "Engineer", work_mode := some "" }

/-- A CV file. -/
def exampleFile : File := { name := "cv.pdf", type := "application/pdf" }

/-- A document with the CV dialog: a chosen file and pasted text at once. -/
def cvWorld : World :=
  { elems := [("cv-modal", { display := "block" }),
              ("cv-text", { value := "Ten years of Lean" }),
              ("cv-file", { files := [exampleFile] })] }

/-! ## Lemmas on the document -/

theorem lookup_updateElem (id id' : String) (f : Elem → Elem) (l : List (String × Elem)) :
    (updateElem id f l).lookup id' =
      if id' = id then (l.lookup id).map f else l.lookup id' := by
  induction l with
  | nil => simp [updateElem]
  | cons p rest ih =>
    obtain ⟨k, e⟩ := p
    by_cases hk : k = id
    · subst hk
      by_cases h' : id' = k
      · subst h'
        simp [updateElem, List.lookup]
      · have : (id' == k) = false := by simpa using h'
        simp [updateElem, List.lookup, this, h']
    · by_cases h' : id' = k
      · subst h'
        simp [updateElem, List.lookup, hk]
      · have hb : (id' == k) = false := by simpa using h'
        have hc : (id == k) = false := by simpa using fun h => hk h.symm
        simp only [updateElem, hk, if_false, List.lookup, hb, hc, ih]

@[simp] theorem getElementById_modify (w : World) (id id' : String) (f : Elem → Elem) :
    getElementById (w.modify id f) id' =
      if id' = id then (getElementById w id).map f else getElementById w id' := by
  simp [getElementById, World.modify, lookup_updateElem]

@[simp] theorem whenPresent_eq_modify (w : World) (id : String) (f : Elem → Elem) :
    w.whenPresent id f = w.modify id f := by
  unfold World.whenPresent
  cases h : getElementById w id with
  | some e => rfl
  | none =>
    have hl : ∀ l : List (String × Elem), l.lookup id = none → updateElem id f l = l := by
      intro l
      induction l with
      | nil => intro _; rfl
      | cons p rest ih =>
        obtain ⟨k, e⟩ := p
        by_cases hk : k = id
        · subst hk
          simp [List.lookup]
        · have hc : (id == k) = false := by simpa using fun h => hk h.symm
          intro hn
          simp only [List.lookup, hc] at hn
          simp [updateElem, hk, ih hn]
    show w = { w with elems := updateElem id f w.elems }
    rw [hl w.elems h]

@[simp] theorem getElementById_record (w : World) (e : Event) (id : String) :
    getElementById (w.record e) id = getElementById w id := rfl

@[simp] theorem log_modify (w : World) (id : String) (f : Elem → Elem) :
    (w.modify id f).log = w.log := rfl

@[simp] theorem log_record (w : World) (e : Event) : (w.record e).log = w.log ++ [e] := rfl

theorem includesChars_iff (needle hay : List Char) :
    includesChars needle hay = true ↔ needle <:+: hay := by
  induction hay with
  | nil => simp [includesChars, List.isPrefixOf]
  | cons c cs ih =>
    simp only [includesChars, Bool.or_eq_true, ih, List.isPrefixOf_iff_prefix,
      List.infix_cons_iff]

theorem isRemote_iff (job : Job) : isRemote job = true ↔ MentionsRemote job := by
  unfold isRemote MentionsRemote
  cases hwm : job.work_mode with
  | none => simp
  | some s =>
    simp only [Bool.and_eq_true, decide_eq_true_eq, includes, includesChars_iff, toLowerCase,
      Option.some.injEq, exists_eq_left']
    constructor
    · rintro ⟨-, pre, post, h⟩
      rw [List.append_assoc] at h
      obtain ⟨l₁, r, hs, h₁, hr⟩ := List.map_eq_append_iff.mp h.symm
      obtain ⟨l₂, l₃, hr', h₂, h₃⟩ := List.map_eq_append_iff.mp hr
      exact ⟨l₁, l₂, l₃, by rw [hs, hr', List.append_assoc], h₂⟩
    · rintro ⟨pre, mid, post, hs, hmid⟩
      refine ⟨?_, pre.map Char.toLower, post.map Char.toLower, ?_⟩
      · rintro rfl
        have : mid = [] := by
          have h0 : ([] : List Char) = pre ++ mid ++ post := hs
          simp at h0
          exact h0.2.1
        subst this
        exact absurd hmid (by decide)
      · rw [hs, List.map_append, List.map_append, hmid]

/-! ## Statistics (`updateStats`) -/

theorem updateStats_array_ok (P : Platform) (w : World) (jobs : List Job) :
    (CareerIntel.updateStats P w (.array jobs)).2 = .ok () := by
  unfold CareerIntel.updateStats
  simp only []
  split_ifs <;> rfl

/-- C1: for every job list, with the elements `jobs-count` and `remote-jobs`
present, `updateStats` returns normally, writes the length of the list to
`jobs-count` and writes to `remote-jobs` the number of entries passing the
filter, which are exactly the entries whose `work_mode` is present and contains
`remote` up to letter case. -/
theorem updateStats_counts (P : Platform) (w : World) (jobs : List Job)
    (hc : (getElementById w "jobs-count").isSome)
    (hr : (getElementById w "remote-jobs").isSome) :
    ∃ w', CareerIntel.updateStats P w (.array jobs) = (w', .ok ()) ∧
      (getElementById w' "jobs-count").map Elem.textContent = some (toString jobs.length) ∧
      (getElementById w' "remote-jobs").map Elem.textContent =
        some (toString (jobs.filter isRemote).length) ∧
      ∀ job, isRemote job = true ↔ MentionsRemote job := by
  obtain ⟨ec, hec⟩ := Option.isSome_iff_exists.mp hc
  obtain ⟨er, her⟩ := Option.isSome_iff_exists.mp hr
  refine ⟨(CareerIntel.updateStats P w (.array jobs)).1, ?_, ?_, ?_, isRemote_iff⟩
  · rw [← updateStats_array_ok P w jobs]
  · unfold CareerIntel.updateStats
    simp only []
    split_ifs <;> simp [hec]
  · unfold CareerIntel.updateStats
    simp only []
    split_ifs <;> simp [her]

/-- Witness of C1 on a document with both displays and three jobs, one of them remote. -/
theorem updateStats_counts_witness :
    ((getElementById exampleWorld "jobs-count").isSome ∧
      (getElementById exampleWorld "remote-jobs").isSome) ∧
    ∃ w', CareerIntel.updateStats examplePlatform exampleWorld (.array exampleJobs) = (w', .ok ()) ∧
      (getElementById w' "jobs-count").map Elem.textContent = some (toString exampleJobs.length) ∧
      (getElementById w' "remote-jobs").map Elem.textContent =
        some (toString (exampleJobs.filter isRemote).length) ∧
      ∀ job, isRemote job = true ↔ MentionsRemote job :=
  ⟨⟨by decide, by decide⟩,
    updateStats_counts examplePlatform exampleWorld exampleJobs (by decide) (by decide)⟩

theorem scoreSum_filter (jobs : List Job) (acc : ℚ) :
    (jobsWithScores jobs).foldl (fun (sum : JsNumber) (job : Job) => sum.add job.match_score)
        (JsNumber.finite acc) = JsNumber.finite (acc + (nonzeroScores jobs).sum) := by
  induction jobs generalizing acc with
  | nil => simp [jobsWithScores, nonzeroScores, numericScores]
  | cons j rest ih =>
    cases hm : j.match_score with
    | none =>
      have := ih acc
      simpa [jobsWithScores, nonzeroScores, numericScores, List.filter_cons, List.filterMap_cons,
        hm, truthyNumber] using this
    | some q =>
      by_cases hq : q = 0
      · have := ih acc
        simpa [jobsWithScores, nonzeroScores, numericScores, List.filter_cons,
          List.filterMap_cons, hm, truthyNumber, hq] using this
      · have := ih (acc + q)
        simpa [jobsWithScores, nonzeroScores, numericScores, List.filter_cons,
          List.filterMap_cons, hm, truthyNumber, hq, JsNumber.add, add_assoc] using this

theorem jobsWithScores_length (jobs : List Job) :
    (jobsWithScores jobs).length = (nonzeroScores jobs).length := by
  induction jobs with
  | nil => rfl
  | cons j rest ih =>
    cases hm : j.match_score with
    | none =>
      simpa [jobsWithScores, nonzeroScores, numericScores, List.filter_cons, List.filterMap_cons,
        hm, truthyNumber] using ih
    | some q =>
      by_cases hq : q = 0
      · simpa [jobsWithScores, nonzeroScores, numericScores, List.filter_cons,
          List.filterMap_cons, hm, truthyNumber, hq] using ih
      · simpa [jobsWithScores, nonzeroScores, numericScores, List.filter_cons,
          List.filterMap_cons, hm, truthyNumber, hq] using ih

theorem jobsWithScores_pos (jobs : List Job)
    (h : ∃ job ∈ jobs, ∃ q, job.match_score = some q ∧ q ≠ 0) :
    0 < (jobsWithScores jobs).length := by
  obtain ⟨job, hmem, q, hq, hne⟩ := h
  apply List.length_pos_of_mem (a := job)
  simp [jobsWithScores, hmem, hq, truthyNumber, hne]

theorem avgScore_eq_mean (jobs : List Job) (h : 0 < (jobsWithScores jobs).length) :
    avgScore jobs = JsNumber.finite (meanOfNonzeroScores jobs) := by
  have hs := scoreSum_filter jobs 0
  have hl := jobsWithScores_length jobs
  unfold avgScore scoreSum meanOfNonzeroScores
  rw [hs, ← hl]
  simp [JsNumber.divNat, Nat.pos_iff_ne_zero.mp h]

theorem updateStats_matchScore (P : Platform) (w : World) (jobs : List Job)
    (h : 0 < (jobsWithScores jobs).length) :
    getElementById (CareerIntel.updateStats P w (.array jobs)).1 "match-score" =
      (getElementById w "match-score").map
        (fun e => { e with textContent := (avgScore jobs).round.toJsString P ++ "%" }) := by
  unfold CareerIntel.updateStats
  simp [h]

theorem updateStats_matchProgress (P : Platform) (w : World) (jobs : List Job)
    (h : 0 < (jobsWithScores jobs).length) :
    getElementById (CareerIntel.updateStats P w (.array jobs)).1 "match-progress" =
      (getElementById w "match-progress").map
        (fun e => { e with width := (avgScore jobs).toJsString P ++ "%" }) := by
  unfold CareerIntel.updateStats
  simp [h]

theorem round_nearest (a : ℚ) : |((⌊a + 1 / 2⌋ : ℤ) : ℚ) - a| ≤ 1 / 2 := by
  have h1 := Int.floor_le (a + 1 / 2)
  have h2 := Int.lt_floor_add_one (a + 1 / 2)
  rw [abs_le]
  constructor <;> linarith

theorem scoredJobs_label (P : Platform) :
    (getElementById (CareerIntel.updateStats P exampleWorld (.array scoredJobs)).1
      "match-score").map Elem.textContent = some "78%" := by
  have hpos : 0 < (jobsWithScores scoredJobs).length := by
    simp [jobsWithScores, scoredJobs, truthyNumber]
  have havg : avgScore scoredJobs = JsNumber.finite (155 / 2) := by
    rw [avgScore_eq_mean scoredJobs hpos]
    norm_num [meanOfNonzeroScores, nonzeroScores, numericScores, scoredJobs, List.filterMap]
  have hfloor : ⌊(155 / 2 : ℚ) + 1 / 2⌋ = 78 := by
    rw [Int.floor_eq_iff]
    constructor <;> norm_num
  rw [updateStats_matchScore P exampleWorld scoredJobs hpos, havg]
  simp only [JsNumber.round, hfloor, JsNumber.toJsString]
  rw [P.integer_decimal 78 (by decide)]
  simp [exampleWorld, getElementById, List.lookup]
  decide

theorem lookup_append_other (id k : String) (e : Elem) (l : List (String × Elem)) (h : id ≠ k) :
    (l ++ [(k, e)]).lookup id = l.lookup id := by
  induction l with
  | nil =>
    have hb : (id == k) = false := by simpa using h
    simp [List.lookup, hb]
  | cons p rest ih =>
    obtain ⟨k', e'⟩ := p
    by_cases hk : id = k'
    · subst hk
      simp [List.lookup]
    · have hb : (id == k') = false := by simpa using hk
      simpa only [List.cons_append, List.lookup, hb] using ih

theorem getElementById_showLoading (w : World) (message id : String)
    (h : id ≠ "loading-overlay") :
    getElementById (CareerIntel.showLoading w message) id = getElementById w id := by
  unfold CareerIntel.showLoading
  simp only [getElementById_record]
  cases hov : getElementById w "loading-overlay" with
  | none => simp [getElementById, World.record, lookup_append_other _ _ _ _ h]
  | some e => simp [h]

theorem getElementById_hideLoading (w : World) (id : String) (h : id ≠ "loading-overlay") :
    getElementById (CareerIntel.hideLoading w) id = getElementById w id := by
  simp [CareerIntel.hideLoading, h]

@[simp] theorem getElementById_showError (w : World) (message id : String) (d : Nat) :
    getElementById (CareerIntel.showError w message d) id = getElementById w id := rfl

@[simp] theorem getElementById_consoleError (w : World) (label id : String) :
    getElementById (consoleError w label) id = getElementById w id := rfl

@[simp] theorem log_showLoading (w : World) (message : String) :
    (CareerIntel.showLoading w message).log = w.log ++ [Event.showLoading message] := by
  unfold CareerIntel.showLoading
  simp only [getElementById_record]
  cases getElementById w "loading-overlay" <;> rfl

@[simp] theorem log_hideLoading (w : World) :
    (CareerIntel.hideLoading w).log = w.log ++ [Event.hideLoading] := by
  simp [CareerIntel.hideLoading]

@[simp] theorem log_showError (w : World) (message : String) (d : Nat) :
    (CareerIntel.showError w message d).log =
      w.log ++ [Event.showError message, Event.showNotification message "error"] := by
  simp [CareerIntel.showError, CareerIntel.showNotification, World.record]

@[simp] theorem log_consoleError (w : World) (label : String) :
    (consoleError w label).log = w.log ++ [Event.consoleError label] := rfl

@[simp] theorem apiBaseUrl_showLoading (w : World) (message : String) :
    (CareerIntel.showLoading w message).apiBaseUrl = w.apiBaseUrl := by
  unfold CareerIntel.showLoading
  simp only [getElementById_record]
  cases getElementById w "loading-overlay" <;> rfl

@[simp] theorem notifications_showLoading (w : World) (message : String) :
    (CareerIntel.showLoading w message).notifications = w.notifications := by
  unfold CareerIntel.showLoading
  simp only [getElementById_record]
  cases getElementById w "loading-overlay" <;> rfl

theorem notifications_showError (w : World) (message : String) (d : Nat) :
    (CareerIntel.showError w message d).notifications =
      w.notifications ++ [⟨"notification notification-error", notificationCssText, "#ef4444",
        message⟩] := by
  simp [CareerIntel.showError, CareerIntel.showNotification, World.record, notificationColor]

@[simp] theorem notifications_record (w : World) (e : Event) :
    (w.record e).notifications = w.notifications := rfl

@[simp] theorem notifications_consoleError (w : World) (label : String) :
    (consoleError w label).notifications = w.notifications := rfl

@[simp] theorem notifications_hideLoading (w : World) :
    (CareerIntel.hideLoading w).notifications = w.notifications := by
  simp [CareerIntel.hideLoading, World.modify, World.record]

theorem searchJobsTry_failed (P : Platform) (w : World) (outcome : FetchOutcome SearchData)
    (h : failedSearch outcome = true) :
    ∃ e, CareerIntel.searchJobsTry P w outcome = (w, .error e) := by
  unfold CareerIntel.searchJobsTry
  rcases outcome with _ | _ | data
  · exact ⟨_, rfl⟩
  · exact ⟨_, rfl⟩
  · rcases data with _ | _ | ⟨success, jobs, error⟩
    · exact ⟨_, rfl⟩
    · exact ⟨_, rfl⟩
    · cases success
      · exact ⟨_, rfl⟩
      · simp [failedSearch] at h

/-- C3: for every failed search (`fetch` rejects, the body does not parse, or the
parsed body carries no truthy `success`) `searchJobs` resolves to `null`, calls
`showError` exactly once (one toast is added), calls neither `displayJobs` nor
`updateStats`, and leaves every element other than the loading overlay, hence
`jobs-container` and the stat displays, exactly as it was. -/
theorem searchJobs_failure (P : Platform) (w : World) (outcome : FetchOutcome SearchData)
    (query location : String) (remote : Bool) (h : failedSearch outcome = true) :
    (CareerIntel.searchJobs P w outcome query location remote).2 = none ∧
    (∃ evs, (CareerIntel.searchJobs P w outcome query location remote).1.log = w.log ++ evs ∧
      (evs.filter Event.isShowError).length = 1 ∧
      Event.displayJobs ∉ evs ∧ Event.updateStats ∉ evs) ∧
    (∃ n, (CareerIntel.searchJobs P w outcome query location remote).1.notifications =
      w.notifications ++ [n] ∧ n.className = "notification notification-error" ∧
      n.textContent = "Failed to search jobs. Please try again.") ∧
    ∀ id, id ≠ "loading-overlay" →
      getElementById (CareerIntel.searchJobs P w outcome query location remote).1 id =
        getElementById w id := by
  obtain ⟨e, he⟩ := searchJobsTry_failed P (CareerIntel.searchJobsBegin w query location remote)
    outcome h
  have hr : CareerIntel.searchJobs P w outcome query location remote =
      (CareerIntel.hideLoading (CareerIntel.showError (consoleError
        (CareerIntel.searchJobsBegin w query location remote) "Search error:")
        "Failed to search jobs. Please try again."), none) := by
    simp only [CareerIntel.searchJobs, CareerIntel.searchJobsResume, he]
  rw [hr]
  refine ⟨rfl, ⟨[Event.showLoading "Loading...",
      Event.fetch (w.apiBaseUrl ++ "/jobs/search")
        (RequestBody.json query location remote ["linkedin", "indeed"]),
      Event.consoleError "Search error:",
      Event.showError "Failed to search jobs. Please try again.",
      Event.showNotification "Failed to search jobs. Please try again." "error",
      Event.hideLoading], ?_, by simp [Event.isShowError], by simp, by simp⟩, ?_, ?_⟩
  · simp [CareerIntel.searchJobsBegin]
  · refine ⟨⟨"notification notification-error", notificationCssText, "#ef4444",
      "Failed to search jobs. Please try again."⟩, ?_, rfl, rfl⟩
    simp [CareerIntel.searchJobsBegin, notifications_showError]
  · intro id hid
    simp [getElementById_hideLoading _ _ hid, CareerIntel.searchJobsBegin,
      getElementById_showLoading _ _ _ hid]

/-- Witness of C3: a rejected `fetch` on a document showing earlier results. -/
theorem searchJobs_failure_witness :
    failedSearch FetchOutcome.rejects = true ∧
    ((CareerIntel.searchJobs examplePlatform exampleWorld FetchOutcome.rejects
        "lean" "" false).2 = none ∧
    (∃ evs, (CareerIntel.searchJobs examplePlatform exampleWorld FetchOutcome.rejects
        "lean" "" false).1.log = exampleWorld.log ++ evs ∧
      (evs.filter Event.isShowError).length = 1 ∧
      Event.displayJobs ∉ evs ∧ Event.updateStats ∉ evs) ∧
    (∃ n, (CareerIntel.searchJobs examplePlatform exampleWorld FetchOutcome.rejects
        "lean" "" false).1.notifications = exampleWorld.notifications ++ [n] ∧
      n.className = "notification notification-error" ∧
      n.textContent = "Failed to search jobs. Please try again.") ∧
    ∀ id, id ≠ "loading-overlay" →
      getElementById (CareerIntel.searchJobs examplePlatform exampleWorld FetchOutcome.rejects
        "lean" "" false).1 id = getElementById exampleWorld id) :=
  ⟨rfl, searchJobs_failure examplePlatform exampleWorld FetchOutcome.rejects "lean" "" false rfl⟩

theorem log_displayJobs (P : Platform) (w : World) (jobs : JobsValue) :
    (CareerIntel.displayJobs P w jobs).1.log = w.log ++ [Event.displayJobs] := by
  unfold CareerIntel.displayJobs
  simp only [getElementById_record]
  cases getElementById w "jobs-container" with
  | none => rfl
  | some e =>
    simp only []
    split_ifs
    · rfl
    · cases jobs <;> rfl

theorem log_updateStats (P : Platform) (w : World) (jobs : JobsValue) :
    (CareerIntel.updateStats P w jobs).1.log = w.log ++ [Event.updateStats] := by
  unfold CareerIntel.updateStats
  cases jobs <;> simp only [] <;> try rfl
  split_ifs <;> simp

theorem log_andThen (r : World × Except JsError Unit) (k : World → World × Except JsError Unit)
    (hk : ∀ w, (k w).1.log = w.log) : (andThen r k).1.log = r.1.log := by
  obtain ⟨w, res⟩ := r
  cases res with
  | ok u => cases u; exact hk w
  | error e => rfl

theorem log_displayCVAnalysis (P : Platform) (w : World) (analysis : Option Analysis) :
    (CareerIntel.displayCVAnalysis P w analysis).1.log = w.log ++ [Event.displayCVAnalysis] := by
  unfold CareerIntel.displayCVAnalysis
  simp only []
  rw [log_andThen]
  · simp only [getElementById_record]
    cases getElementById w "cv-score-display" <;> cases analysis <;> rfl
  · intro w1
    rw [log_andThen]
    · cases getElementById w1 "score-arc" <;> cases analysis <;> try rfl
      simp only []
      split_ifs <;> rfl
    · intro w2
      rw [log_andThen]
      · cases getElementById w2 "cv-recommendations" <;> cases analysis <;> try rfl
        rename_i e a
        obtain ⟨score, recs⟩ := a
        cases recs <;> rfl
      · intro w3
        cases getElementById w3 "cv-score" <;> cases analysis <;> rfl

theorem log_searchJobsTry (P : Platform) (w : World) (outcome : FetchOutcome SearchData) :
    ∃ evs, (CareerIntel.searchJobsTry P w outcome).1.log = w.log ++ evs ∧
      Event.hideLoading ∉ evs := by
  unfold CareerIntel.searchJobsTry
  rcases outcome with _ | _ | data
  · exact ⟨[], by simp, by simp⟩
  · exact ⟨[], by simp, by simp⟩
  · rcases data with _ | _ | ⟨success, jobs, error⟩
    · exact ⟨[], by simp, by simp⟩
    · exact ⟨[], by simp, by simp⟩
    · cases success
      · exact ⟨[], by simp, by simp⟩
      · simp only [if_true]
        have hd := log_displayJobs P w jobs
        rcases hdj : CareerIntel.displayJobs P w jobs with ⟨w1, r1⟩
        rw [hdj] at hd
        have hd' : w1.log = w.log ++ [Event.displayJobs] := hd
        cases r1 with
        | error e => exact ⟨[Event.displayJobs], hd', by simp⟩
        | ok u =>
          have hu := log_updateStats P w1 jobs
          rcases hus : CareerIntel.updateStats P w1 jobs with ⟨w2, r2⟩
          rw [hus] at hu
          have hu' : w2.log = w1.log ++ [Event.updateStats] := hu
          refine ⟨[Event.displayJobs, Event.updateStats], ?_, by simp⟩
          cases r2 <;> simp [hus, hu', hd']

theorem log_analyzeCVTry (P : Platform) (w : World) (outcome : FetchOutcome AnalysisData) :
    ∃ evs, (CareerIntel.analyzeCVTry P w outcome).1.log = w.log ++ evs ∧
      Event.hideLoading ∉ evs := by
  unfold CareerIntel.analyzeCVTry
  rcases outcome with _ | _ | data
  · exact ⟨[], by simp, by simp⟩
  · exact ⟨[], by simp, by simp⟩
  · rcases data with _ | _ | ⟨success, analysis, error⟩
    · exact ⟨[], by simp, by simp⟩
    · exact ⟨[], by simp, by simp⟩
    · cases success
      · exact ⟨[], by simp, by simp⟩
      · simp only [if_true]
        have hd := log_displayCVAnalysis P w analysis
        rcases hdj : CareerIntel.displayCVAnalysis P w analysis with ⟨w1, r1⟩
        rw [hdj] at hd
        have hd' : w1.log = w.log ++ [Event.displayCVAnalysis] := hd
        refine ⟨[Event.displayCVAnalysis], ?_, by simp⟩
        cases r1 <;> exact hd'

theorem searchJobsResume_last (P : Platform) (w : World) (outcome : FetchOutcome SearchData) :
    ∃ w1 evs, (CareerIntel.searchJobsResume P w outcome).1 = CareerIntel.hideLoading w1 ∧
      w1.log = w.log ++ evs ∧ Event.hideLoading ∉ evs := by
  obtain ⟨evs, hlog, hnot⟩ := log_searchJobsTry P w outcome
  unfold CareerIntel.searchJobsResume
  rcases ht : CareerIntel.searchJobsTry P w outcome with ⟨w1, r1⟩
  rw [ht] at hlog
  have hlog' : w1.log = w.log ++ evs := hlog
  cases r1 with
  | ok data => exact ⟨w1, evs, rfl, hlog', hnot⟩
  | error e =>
    refine ⟨_, evs ++ [Event.consoleError "Search error:",
      Event.showError "Failed to search jobs. Please try again.",
      Event.showNotification "Failed to search jobs. Please try again." "error"], rfl, ?_, ?_⟩
    · simp [hlog']
    · simp [hnot]

theorem analyzeCVResume_last (P : Platform) (w : World) (outcome : FetchOutcome AnalysisData) :
    ∃ w1 evs, (CareerIntel.analyzeCVResume P w outcome).1 = CareerIntel.hideLoading w1 ∧
      w1.log = w.log ++ evs ∧ Event.hideLoading ∉ evs := by
  obtain ⟨evs, hlog, hnot⟩ := log_analyzeCVTry P w outcome
  unfold CareerIntel.analyzeCVResume
  rcases ht : CareerIntel.analyzeCVTry P w outcome with ⟨w1, r1⟩
  rw [ht] at hlog
  have hlog' : w1.log = w.log ++ evs := hlog
  cases r1 with
  | ok data => exact ⟨w1, evs, rfl, hlog', hnot⟩
  | error e =>
    refine ⟨_, evs ++ [Event.consoleError "CV analysis error:",
      Event.showError "Failed to analyze CV. Please try again.",
      Event.showNotification "Failed to analyze CV. Please try again." "error"], rfl, ?_, ?_⟩
    · simp [hlog']
    · simp [hnot]

theorem jobsWithScores_eq_nil (jobs : List Job) (h : ∀ job ∈ jobs, job.match_score = none) :
    jobsWithScores jobs = [] := by
  unfold jobsWithScores
  rw [List.filter_eq_nil_iff]
  intro job hmem
  simp [h job hmem, truthyNumber]

/-- C6: for every job list in which no entry carries a match score (the empty
list included) `updateStats` returns normally; the branch computing the average
is not entered (`jobsWithScores` is empty), the only writes are the two counts,
and the elements `match-score` and `match-progress` are left exactly as they were. -/
theorem updateStats_without_scores (P : Platform) (w : World) (jobs : List Job)
    (h : ∀ job ∈ jobs, job.match_score = none) :
    jobsWithScores jobs = [] ∧
    CareerIntel.updateStats P w (.array jobs) =
      (((w.record Event.updateStats).whenPresent "jobs-count"
          (fun e => { e with textContent := toString jobs.length })).whenPresent "remote-jobs"
          (fun e => { e with textContent := toString (jobs.filter isRemote).length }),
        .ok ()) ∧
    getElementById (CareerIntel.updateStats P w (.array jobs)).1 "match-score" =
      getElementById w "match-score" ∧
    getElementById (CareerIntel.updateStats P w (.array jobs)).1 "match-progress" =
      getElementById w "match-progress" := by
  have hnil := jobsWithScores_eq_nil jobs h
  have hrun : CareerIntel.updateStats P w (.array jobs) =
      (((w.record Event.updateStats).whenPresent "jobs-count"
          (fun e => { e with textContent := toString jobs.length })).whenPresent "remote-jobs"
          (fun e => { e with textContent := toString (jobs.filter isRemote).length }),
        .ok ()) := by
    unfold CareerIntel.updateStats
    simp [hnil]
  refine ⟨hnil, hrun, ?_, ?_⟩ <;> rw [hrun] <;> simp

/-- Witness of C6 on three jobs without score. -/
theorem updateStats_without_scores_witness :
    (∀ job ∈ exampleJobs, job.match_score = none) ∧
    (jobsWithScores exampleJobs = [] ∧
    CareerIntel.updateStats examplePlatform exampleWorld (.array exampleJobs) =
      (((exampleWorld.record Event.updateStats).whenPresent "jobs-count"
          (fun e => { e with textContent := toString exampleJobs.length })).whenPresent
          "remote-jobs"
          (fun e => { e with textContent := toString (exampleJobs.filter isRemote).length }),
        .ok ()) ∧
    getElementById (CareerIntel.updateStats examplePlatform exampleWorld
      (.array exampleJobs)).1 "match-score" = getElementById exampleWorld "match-score" ∧
    getElementById (CareerIntel.updateStats examplePlatform exampleWorld
      (.array exampleJobs)).1 "match-progress" = getElementById exampleWorld "match-progress") :=
  ⟨by decide, updateStats_without_scores examplePlatform exampleWorld exampleJobs (by decide)⟩

/-! ## CV submission -/

theorem log_setDisplay (w : World) (id value : String) :
    (setDisplay w id value).1.log = w.log := by
  unfold setDisplay
  cases getElementById w id <;> rfl

/-- C7: when both a file and text are present the form built by
`CareerIntel.analyzeCV` has the single part `cv_file` holding the file, and that
form is the body of the one request made; `analyzeUploadedCV`, when the file
input holds at least one file, makes exactly that request with the first file,
whatever the text area contains. -/
theorem file_takes_precedence (w : World) (f : File) (t : String) (input : Elem)
    (rest : List File) (hin : getElementById w "cv-file" = some input)
    (hfiles : input.files = f :: rest) :
    buildFormData { file := some f, text := some t } = [("cv_file", FormValue.file f)] ∧
    (CareerIntel.analyzeCVBegin w { file := some f, text := some t }).log =
      w.log ++ [Event.showLoading "Analyzing CV...",
        Event.fetch (w.apiBaseUrl ++ "/cv/analyze")
          (RequestBody.form [("cv_file", FormValue.file f)])] ∧
    (analyzeUploadedCV w).1.log =
      w.log ++ [Event.showLoading "Analyzing CV...",
        Event.fetch (w.apiBaseUrl ++ "/cv/analyze")
          (RequestBody.form [("cv_file", FormValue.file f)])] := by
  refine ⟨rfl, ?_, ?_⟩
  · simp [CareerIntel.analyzeCVBegin, buildFormData]
  · unfold analyzeUploadedCV
    simp only [hin, hfiles, log_setDisplay]
    simp [CareerIntel.analyzeCVBegin, buildFormData]

/-- Witness of C7: the dialog holds a file and pasted text at once. -/
theorem file_takes_precedence_witness :
    (getElementById cvWorld "cv-file" = some { files := [exampleFile] } ∧
      ({ files := [exampleFile] } : Elem).files = exampleFile :: []) ∧
    (buildFormData { file := some exampleFile, text := some "Ten years of Lean" } =
      [("cv_file", FormValue.file exampleFile)] ∧
    (CareerIntel.analyzeCVBegin cvWorld
        { file := some exampleFile, text := some "Ten years of Lean" }).log =
      cvWorld.log ++ [Event.showLoading "Analyzing CV...",
        Event.fetch (cvWorld.apiBaseUrl ++ "/cv/analyze")
          (RequestBody.form [("cv_file", FormValue.file exampleFile)])] ∧
    (analyzeUploadedCV cvWorld).1.log =
      cvWorld.log ++ [Event.showLoading "Analyzing CV...",
        Event.fetch (cvWorld.apiBaseUrl ++ "/cv/analyze")
          (RequestBody.form [("cv_file", FormValue.file exampleFile)])]) :=
  ⟨⟨by decide, rfl⟩,
    file_takes_precedence cvWorld exampleFile "Ten years of Lean" { files := [exampleFile] } []
      (by decide) rfl⟩

/-! ## Absent elements -/

/-- C10 fails on the global handlers: on a document without the elements they
address, `analyzeCV`, `analyzeUploadedCV`, `closeModal`, `showSearchModal` and
`performAdvancedSearch` throw a `TypeError`, while `performSearch` and
`changeTheme`, which test the element first, return normally. -/
theorem handlers_throw_on_absent_element :
    (analyzeCV {}).2 = .error .typeError ∧
    (analyzeUploadedCV {}).2 = .error .typeError ∧
    (closeModal {} "cv-modal").2 = .error .typeError ∧
    (showSearchModal {}).2 = .error .typeError ∧
    (performAdvancedSearch {}).2 = .error .typeError ∧
    (performSearch {}).2 = .ok () ∧
    (changeTheme {} "corporate-dark").2 = .ok () :=
  ⟨rfl, rfl, rfl, rfl, rfl, rfl, rfl⟩

/-! ## Rendering of job fields -/

theorem displayJobs_array_container (P : Platform) (w : World) (job : Job) (rest : List Job) :
    getElementById (CareerIntel.displayJobs P w (.array (job :: rest))).1 "jobs-container" =
      (getElementById w "jobs-container").map
        (fun e => { e with innerHTML := jobCardsHtml P (job :: rest) }) := by
  unfold CareerIntel.displayJobs
  simp only [getElementById_record]
  cases h : getElementById w "jobs-container" with
  | none => simp [h]
  | some e => simp [JobsValue.truthy, JobsValue.lengthIsZero, h]

/-- C4 fails on the code: `title` is written through `escapeHtml`, but
`work_mode` and `posted_date` (card and modal) and `source` (modal) are
interpolated as they are, so markup in them reaches the HTML that `displayJobs`
writes to `jobs-container` and that `createJobDetailsModal` gives to the modal. -/
theorem work_mode_written_unescaped :
    CareerIntel.escapeHtml scriptJob.title = "&lt;script&gt;alert(1)&lt;/script&gt;" ∧
    (∀ P : Platform, jobCard P scriptJob =
      jobCardTemplate "" "&lt;script&gt;alert(1)&lt;/script&gt;" "" ""
        "<script>alert(1)</script>" "<img src=x onerror=alert(2)>" ""
        ⟨escapeApostrophes (P.jsonStringify scriptJob).data⟩) ∧
    (∀ P : Platform, (CareerIntel.createJobDetailsModal P scriptJob).2.innerHTML =
      modalTemplate "&lt;script&gt;alert(1)&lt;/script&gt;" "" ""
        "<script>alert(1)</script>" "<img src=x onerror=alert(2)>" "<b>feed</b>" "" "") ∧
    (∀ P : Platform,
      (getElementById (CareerIntel.displayJobs P exampleWorld (.array [scriptJob])).1
        "jobs-container").map Elem.innerHTML = some (jobCard P scriptJob)) := by
  refine ⟨by decide, fun P => rfl, fun P => rfl, fun P => ?_⟩
  rw [displayJobs_array_container]
  simp [exampleWorld, getElementById, List.lookup, jobCardsHtml]

/-- C9, as stated, fails: a `work_mode` that is present with the empty string as
value is rendered as `Not specified`, not as its own (empty) value. -/
theorem empty_work_mode_renders_fallback :
    emptyWorkModeJob.work_mode = some "" ∧
    ∀ P : Platform,
      jobCard P emptyWorkModeJob =
        jobCardTemplate "" "Engineer" "" "" "Not specified" "Recently" ""
          ⟨escapeApostrophes (P.jsonStringify emptyWorkModeJob).data⟩ ∧
      jobCard P emptyWorkModeJob ≠
        jobCardTemplate "" "Engineer" "" "" "" "Recently" ""
          ⟨escapeApostrophes (P.jsonStringify emptyWorkModeJob).data⟩ := by
  refine ⟨rfl, fun P => ⟨rfl, fun h => ?_⟩⟩
  have hlen := congrArg String.length h
  have h13 : "Not specified".length = 13 := rfl
  have h0 : "".length = 0 := rfl
  have hcard : jobCard P emptyWorkModeJob =
      jobCardTemplate "" "Engineer" "" "" "Not specified" "Recently" ""
        ⟨escapeApostrophes (P.jsonStringify emptyWorkModeJob).data⟩ := rfl
  rw [hcard] at hlen
  simp only [jobCardTemplate, String.length_append, h13, h0] at hlen
  omega

theorem orElse_fallbackRule (field : Option String) (fallback : String) :
    FallbackRule field fallback (orElse field fallback) := by
  refine ⟨?_, ?_, ?_⟩
  · rintro rfl; rfl
  · rintro rfl; rfl
  · rintro v rfl hv
    simp [orElse, hv]

/-- C9, amended: in the card and in the modal a `work_mode` that is missing or
empty is rendered as `Not specified`, a missing or empty `posted_date` as
`Recently`, and in the modal a missing or empty `source` as `Unknown`; a field
that is present and not empty is rendered as its own value. -/
theorem optional_fields_rendering (P : Platform) (job : Job) :
    ∃ workMode postedDate source,
      jobCard P job =
        jobCardTemplate (matchBadge P job) (CareerIntel.escapeHtml job.title)
          (CareerIntel.escapeHtml job.company) (CareerIntel.escapeHtml job.location)
          workMode postedDate (CareerIntel.escapeHtml (some (orElse job.apply_url "")))
          ⟨escapeApostrophes (P.jsonStringify job).data⟩ ∧
      (CareerIntel.createJobDetailsModal P job).2.innerHTML =
        modalTemplate (CareerIntel.escapeHtml job.title) (CareerIntel.escapeHtml job.company)
          (CareerIntel.escapeHtml job.location) workMode postedDate source
          (modalScoreRow P job) (CareerIntel.escapeHtml (some (orElse job.apply_url ""))) ∧
      FallbackRule job.work_mode "Not specified" workMode ∧
      FallbackRule job.posted_date "Recently" postedDate ∧
      FallbackRule job.source "Unknown" source :=
  ⟨orElse job.work_mode "Not specified", orElse job.posted_date "Recently",
    orElse job.source "Unknown", rfl, rfl, orElse_fallbackRule _ _, orElse_fallbackRule _ _,
    orElse_fallbackRule _ _⟩

/-! ## Malformed payloads -/

theorem displayJobs_nonlist_container (P : Platform) (w : World) (jobs : JobsValue)
    (h : jobs.isList = false) :
    getElementById (CareerIntel.displayJobs P w jobs).1 "jobs-container" =
      if (!jobs.truthy || jobs.lengthIsZero) = true then
        (getElementById w "jobs-container").map (fun e => { e with innerHTML := emptyStateHtml })
      else getElementById w "jobs-container" := by
  unfold CareerIntel.displayJobs
  simp only [getElementById_record]
  cases hc : getElementById w "jobs-container" with
  | none => simp [hc]
  | some e =>
    simp only []
    split_ifs with hcond
    · simp [hc]
    · cases jobs <;> simp_all [JobsValue.isList]

theorem notifications_displayJobs (P : Platform) (w : World) (jobs : JobsValue) :
    (CareerIntel.displayJobs P w jobs).1.notifications = w.notifications := by
  unfold CareerIntel.displayJobs
  simp only [getElementById_record]
  cases getElementById w "jobs-container" with
  | none => rfl
  | some e =>
    simp only []
    split_ifs
    · rfl
    · cases jobs <;> rfl

theorem updateStats_nonlist (P : Platform) (w : World) (jobs : JobsValue)
    (h : jobs.isList = false) :
    CareerIntel.updateStats P w jobs = (w.record Event.updateStats, .error .typeError) := by
  cases jobs <;> first | rfl | simp [JobsValue.isList] at h

theorem searchJobsTry_nonlist (P : Platform) (w : World) (jobs : JobsValue)
    (error : Option String) (h : jobs.isList = false) :
    ∃ e w', CareerIntel.searchJobsTry P w (.parsed (.object true jobs error)) = (w', .error e) ∧
      getElementById w' "jobs-container" =
        getElementById (CareerIntel.displayJobs P w jobs).1 "jobs-container" ∧
      w'.notifications = w.notifications ∧
      ∃ evs, w'.log = w.log ++ evs ∧ evs.filter Event.isShowError = [] := by
  unfold CareerIntel.searchJobsTry
  simp only [if_true]
  have hd := log_displayJobs P w jobs
  have hn := notifications_displayJobs P w jobs
  rcases hdj : CareerIntel.displayJobs P w jobs with ⟨w1, r1⟩
  rw [hdj] at hd hn
  have hd' : w1.log = w.log ++ [Event.displayJobs] := hd
  have hn' : w1.notifications = w.notifications := hn
  cases r1 with
  | error e => exact ⟨e, w1, rfl, rfl, hn', [Event.displayJobs], hd', rfl⟩
  | ok u =>
    simp only [updateStats_nonlist P w1 jobs h]
    exact ⟨_, _, rfl, rfl, hn', [Event.displayJobs, Event.updateStats], by simp [hd'], rfl⟩

theorem jobCardsHtml_eq_join (P : Platform) (jobs : List Job) :
    jobCardsHtml P jobs = String.join (jobs.map (jobCard P)) := by
  unfold jobCardsHtml String.join
  rw [List.foldl_map]

theorem displayJobs_empty (P : Platform) (w : World) (container : Elem) (jobs : JobsValue)
    (hc : getElementById w "jobs-container" = some container)
    (hj : (!jobs.truthy || jobs.lengthIsZero) = true) :
    CareerIntel.displayJobs P w jobs =
      ((w.record Event.displayJobs).modify "jobs-container"
        (fun e => { e with innerHTML := emptyStateHtml }), .ok ()) := by
  unfold CareerIntel.displayJobs
  simp only [getElementById_record, hc, hj, if_true]

theorem displayJobs_cards (P : Platform) (w : World) (container : Elem) (jobs : List Job)
    (hc : getElementById w "jobs-container" = some container) (hne : jobs ≠ []) :
    CareerIntel.displayJobs P w (.array jobs) =
      ((w.record Event.displayJobs).modify "jobs-container"
        (fun e => { e with innerHTML := jobCardsHtml P jobs }), .ok ()) := by
  unfold CareerIntel.displayJobs
  have hcond : (!(JobsValue.array jobs).truthy || (JobsValue.array jobs).lengthIsZero) = false := by
    cases jobs with
    | nil => exact absurd rfl hne
    | cons j rest => simp [JobsValue.truthy, JobsValue.lengthIsZero]
  simp only [getElementById_record, hc, hcond]
  rfl

theorem jobCardTemplate_block (badge title company location workMode postedDate applyUrl
    json : String) :
    ∃ body, jobCardTemplate badge title company location workMode postedDate applyUrl json =
      "\n                <div class=\"job-card\">" ++ body ++ "</div>\n            " := by
  have hstart : ("\n                <div class=\"job-card\">\n                    <div class=\"job-header\">\n                        <div class=\"company-logo\">\n                            <i class=\"fas fa-building\"></i>\n                        </div>\n                        <div class=\"job-meta\">\n                            " : String) =
      "\n                <div class=\"job-card\">" ++
      "\n                    <div class=\"job-header\">\n                        <div class=\"company-logo\">\n                            <i class=\"fas fa-building\"></i>\n                        </div>\n                        <div class=\"job-meta\">\n                            " := rfl
  have hend : (")\">\n                            View Details\n                        </button>\n                    </div>\n                </div>\n            " : String) =
      ")\">\n                            View Details\n                        </button>\n                    </div>\n                " ++
      "</div>\n            " := rfl
  refine ⟨"\n                    <div class=\"job-header\">\n                        <div class=\"company-logo\">\n                            <i class=\"fas fa-building\"></i>\n                        </div>\n                        <div class=\"job-meta\">\n                            " ++
      badge ++
      "\n                            <button class=\"bookmark-btn\" onclick=\"CareerIntel.toggleBookmark(this)\">\n                                <i class=\"far fa-bookmark\"></i>\n                            </button>\n                        </div>\n                    </div>\n                    <h3 class=\"job-title\">" ++
      title ++
      "</h3>\n                    <p class=\"company-name\">" ++
      company ++
      "</p>\n                    <div class=\"job-details\">\n                        <span><i class=\"fas fa-map-marker-alt\"></i> " ++
      location ++
      "</span>\n                        <span><i class=\"fas fa-home\"></i> " ++
      workMode ++
      "</span>\n                        <span><i class=\"fas fa-clock\"></i> " ++
      postedDate ++
      "</span>\n                    </div>\n                    <div class=\"job-actions\">\n                        <button class=\"btn-primary\" onclick=\"CareerIntel.applyJob('" ++
      applyUrl ++
      "')\">\n                            Apply Now\n                        </button>\n                        <button class=\"btn-secondary\" onclick=\"CareerIntel.viewJobDetails(" ++
      json ++
      ")\">\n                            View Details\n                        </button>\n                    </div>\n                ", ?_⟩
  unfold jobCardTemplate
  rw [hstart, hend]
  simp only [String.append_assoc]

theorem emptyStateHtml_block :
    emptyStateHtml ≠ "" ∧
    ∃ pre mid post, emptyStateHtml =
      pre ++ "<div class=\"empty-state\">" ++ mid ++ "<h3>No jobs found</h3>" ++ post :=
  ⟨by decide,
    "\n                ", "\n                    <i class=\"fas fa-search fa-3x\"></i>\n                    ",
    "\n                    <p>Try adjusting your search criteria</p>\n                </div>\n            ",
    rfl⟩

end SmartJob
